import Mathlib

/-!
Verification of the authentication and authorization core of the
security-incident backend: a shallow embedding of the middleware
(`backend/src/middleware/auth.js`), the auth module
(`backend/src/modules/auth_module.js`), the users module
(`backend/src/modules/users.module.js`) and the incident ACL predicates
(`src/modules/incidents_module.js`, `src/modules/actions_module.js`),
with theorems settling the behavioural claims about them.

Conventions: machine timestamps are `Int` milliseconds since the epoch
(JS `Date.getTime()`); JS `undefined`/`null` string values are `Option
String` with `none`; JS truthiness of a string value is "`some` and
non-empty".  bcrypt comparison and hashing are external library calls
and enter the model as explicit function parameters / result values.
-/

/- ============================= Shared basics ============================= -/

/-- JS truthiness of an optional string value (`undefined`, `null` and `""`
are falsy; every other string is truthy). -/
def optTruthy : Option String → Bool
  | none => false
  | some s => s ≠ ""

/-- Milliseconds in a day, the `1000 * 60 * 60 * 24` constant of the source. -/
def msPerDay : Int := 86400000

/-- The characters `String.prototype.trim` strips (ASCII whitespace; the
further exotic Unicode space code points never occur in the inputs at issue). -/
def isJsSpace (c : Char) : Bool := c = ' ' || c = '\t' || c = '\n' || c = '\r'

/-- JS `String.prototype.trim`: strip leading and trailing whitespace. -/
def strTrim (s : String) : String :=
  ⟨((s.toList.dropWhile isJsSpace).reverse.dropWhile isJsSpace).reverse⟩

/-- JS `String.prototype.toLowerCase`, character by character (the strings
it is applied to — roles, HTTP methods, URLs — are ASCII, where the JS and
`Char.toLower` case maps agree). -/
def strToLower (s : String) : String := ⟨s.toList.map Char.toLower⟩

/-- JS `String.prototype.toUpperCase`, character by character (ASCII). -/
def strToUpper (s : String) : String := ⟨s.toList.map Char.toUpper⟩

/-- `listStartsWith p l` : `p` is a leading segment of `l`. -/
def listStartsWith : List Char → List Char → Bool
  | [], _ => true
  | _ :: _, [] => false
  | p :: ps, c :: cs => p = c && listStartsWith ps cs

/-- `listContainsSeq p l` : `p` occurs contiguously somewhere in `l`
(JS `String.prototype.includes`). -/
def listContainsSeq (pat : List Char) : List Char → Bool
  | [] => listStartsWith pat []
  | c :: rest => listStartsWith pat (c :: rest) || listContainsSeq pat rest

/-- `/pat$/.test(s)` for a literal pattern — an end-of-string suffix match. -/
def strEndsWith (s suffix : String) : Bool :=
  listStartsWith suffix.toList.reverse s.toList.reverse

/- ============== Token service (auth.js lines 22-43, auth_module.js 61-80) ============== -/

/-- The request identity attached by the middleware and equally the part of
the token payload the middleware consumes (`{id, username, fullname, role}`).
The extra payload fields (`position`, `status`, issued-at) play no role in
any claim and are elided. -/
structure Identity where
  id : Int
  username : String
  fullname : String
  role : String
deriving DecidableEq, Repr

/-- A signed JWT, abstracted to its payload, the secret it was signed with
and its expiry instant. -/
structure Token where
  payload : Identity
  secret : String
  exp : Int
deriving DecidableEq, Repr

/-- The failures `jsonwebtoken`'s `verify` can produce here.
`tokenExpired` is the `TokenExpiredError` case, `invalidSignature` every
other `JsonWebTokenError` (wrong secret), and `noSecretConfigured` the
`new Error("No JWT secret configured.")` the loop itself throws. -/
inductive JwtError
  | tokenExpired
  | invalidSignature
  | noSecretConfigured
deriving DecidableEq, Repr

/-- `jwt.verify(token, secret)`: the library validates the signature first
(wrong secret → `JsonWebTokenError`), and only then the `exp` claim
(`clockTimestamp >= exp` → `TokenExpiredError`). -/
def jwtVerify (now : Int) (tok : Token) (secret : String) : Except JwtError Identity :=
  if secret ≠ tok.secret then .error .invalidSignature
  else if tok.exp ≤ now then .error .tokenExpired
  else .ok tok.payload

/-- The loop body of `verifyWithAnySecret`: try each candidate in order,
return on the first success, remember the last error (`lastErr`). -/
def verifyLoop (now : Int) (tok : Token) : List String → Option JwtError → Except JwtError Identity
  | [], none => .error .noSecretConfigured
  | [], some e => .error e
  | s :: rest, _last =>
    match jwtVerify now tok s with
    | .ok p => .ok p
    | .error e => verifyLoop now tok rest (some e)

/-- `verifyWithAnySecret` of `auth.js`: candidates in configured order,
first success wins, otherwise the last failure is rethrown. -/
def verifyWithAnySecret (now : Int) (secrets : List String) (tok : Token) :
    Except JwtError Identity :=
  verifyLoop now tok secrets none

/-- The middleware's mapping of a verification failure to the response
`code` field (`e?.name === "TokenExpiredError"`). -/
def authErrorCode (e : JwtError) : String :=
  if e = .tokenExpired then "EXPIRED_ACCESS" else "INVALID_ACCESS"

/- ===================== Hydration (auth.js lines 46-64) ===================== -/

/-- What the identity store does for a hydration query: the pool query
throws (store unreachable), returns no row, or returns the user row. -/
inductive StoreResult
  | unreachable
  | notFound
  | found (row : Identity)
deriving DecidableEq, Repr

/-- The failures raised inside the `try` block of `hydrateUserIfNeeded`:
the pool error, or the constructed `Error("User not found")` with
`err.status = 403`. -/
inductive HydrateError
  | dbError
  | userNotFound (status : Nat)
deriving DecidableEq, Repr

/-- The body of the `try` block of `hydrateUserIfNeeded`: query the store,
throw a 403 "User not found" if no row exists, otherwise return the row's
fields. -/
def hydrateAttempt (store : StoreResult) : Except HydrateError Identity :=
  match store with
  | .unreachable => .error .dbError
  | .notFound => .error (.userNotFound 403)
  | .found row => .ok { id := row.id, username := row.username,
                        fullname := row.fullname, role := row.role }

/-- `hydrateUserIfNeeded` of `auth.js`: `Number(payload?.id || 0)` guards the
query; the surrounding `catch` has no filter, so it swallows every failure of
the `try` block — the pool error AND the thrown `userNotFound 403` — and falls
back to the token payload in both cases. -/
def hydrateUserIfNeeded (p : Identity) (store : StoreResult) : Identity :=
  if p.id = 0 then p
  else
    match hydrateAttempt store with
    | .ok v => v
    | .error _ => p

/- ============ Password expiry (auth.js 67-81, auth_module.js 44-58) ============ -/

/-- The `{expired, days}` object `checkPasswordExpiry` resolves to. -/
structure ExpiryResult where
  expired : Bool
  days : Option Int
deriving DecidableEq, Repr

/-- `checkPasswordExpiry` of `auth.js` (the per-request middleware path).
`changedAt` is the stored `password_changed_at` (`none` for a missing row or
NULL column); `Math.floor` of the millisecond difference over a day is
`Int.fdiv`. -/
def checkPasswordExpiry (role : String) (changedAt : Option Int)
    (now maxAgeDays : Int) : ExpiryResult :=
  if strToLower role = "system-admin" then ⟨false, none⟩
  else
    match changedAt with
    | none => ⟨true, some 9999⟩
    | some t =>
      let days := Int.fdiv (now - t) msPerDay
      ⟨decide (maxAgeDays < days), some days⟩

/-- `isPasswordExpired` of `auth_module.js` (the login-flow path).  The JS
body compares `diffMs / 86400000 > PASSWORD_MAX_AGE_DAYS` with real-number
division (no `Math.floor`), equivalent over the integers to
`maxAgeDays * 86400000 < diffMs`.  `none` models a NULL or unparseable
(`isNaN`) `password_changed_at`. -/
def isPasswordExpired (maxAgeDays : Int) (changedAt : Option Int) (now : Int) : Bool :=
  if maxAgeDays ≤ 0 then false
  else
    match changedAt with
    | none => true
    | some t => decide (maxAgeDays * msPerDay < now - t)

/-- The reference password-expiry predicate exactly as claim C4 and spec
§4.3 state it: disabled for `max_age_days ≤ 0`; fail-closed for an
absent/unparseable timestamp; otherwise expired iff the age in WHOLE days
strictly exceeds `max_age_days`. -/
def refIsExpired (maxAgeDays : Int) (changedAt : Option Int) (now : Int) : Bool :=
  if maxAgeDays ≤ 0 then false
  else
    match changedAt with
    | none => true
    | some t => decide (maxAgeDays < Int.fdiv (now - t) msPerDay)

/- ============== Expiry whitelist and gate (auth.js 84-131) ============== -/

/-- `req.method || "GET"`. -/
def effMethod (m : String) : String := if m = "" then "GET" else m

/-- `isExpiredWhitelist` of `auth.js`: method uppercased, URL lowercased,
each `/regex$/.test` an end-of-string suffix match. -/
def isExpiredWhitelist (method url : String) : Bool :=
  let m := strToUpper (effMethod method)
  let u := strToLower url
  if m = "GET" && strEndsWith u "/api/auth/me" then true
  else if m = "PATCH" && strEndsWith u "/api/auth/password" then true
  else if m = "POST" && strEndsWith u "/api/auth/logout" then true
  else false

/-- Outcome of a middleware step: hand the request to the next handler, or
answer it with a status and an optional machine-readable `code`. -/
inductive GateOutcome
  | proceed
  | respond (status : Nat) (code : Option String)
deriving DecidableEq, Repr

/-- Lines 125-131 of `auth.js`: the password-expiry gate that runs after
hydration, given the computed `expired` flag and the request method/URL. -/
def expiryGate (expired : Bool) (method url : String) : GateOutcome :=
  if expired && !(isExpiredWhitelist method url) then
    .respond 403 (some "PASSWORD_EXPIRED")
  else .proceed

/-- The expiry whitelist as claim C6 states it: a method + path-suffix
table of exactly GET …/auth/me, PATCH …/auth/password, POST …/auth/logout
(matching is case-insensitive, as in the code). -/
def whitelistSpec (method url : String) : Prop :=
  (strToUpper (effMethod method) = "GET" ∧ strEndsWith (strToLower url) "/api/auth/me" = true)
  ∨ (strToUpper (effMethod method) = "PATCH" ∧ strEndsWith (strToLower url) "/api/auth/password" = true)
  ∨ (strToUpper (effMethod method) = "POST" ∧ strEndsWith (strToLower url) "/api/auth/logout" = true)

/- ===================== Role gate (auth.js 141-155) ===================== -/

/-- `allowRoles(...roles)` of `auth.js`, applied to the configured role list
and the identity the auth middleware attached (or `none` if none was). -/
def allowRoles (roles : List String) (user : Option Identity) : GateOutcome :=
  let allowed := roles.map (fun r => strToLower r)
  match user with
  | none => .respond 401 none
  | some u =>
    let myRole := strToLower u.role
    if myRole = "system-admin" then .proceed
    else if !(allowed.contains myRole) then .respond 403 none
    else .proceed

/- ===== Password complexity (auth_module.js 148-157 and 199-207, users.module.js 30-37) ===== -/

/-- `[A-Z]`. -/
def isAsciiUpper (c : Char) : Bool := 'A' ≤ c && c ≤ 'Z'

/-- `[a-z]`. -/
def isAsciiLower (c : Char) : Bool := 'a' ≤ c && c ≤ 'z'

/-- `\d` (without the `u` flag this is exactly `[0-9]`). -/
def isAsciiDigit (c : Char) : Bool := '0' ≤ c && c ≤ '9'

/-- The character range `[آ-ی]` of the source regexes: code points U+0622
(ALEF WITH MADDA) through U+06CC (FARSI YEH). -/
def inPersianRange (c : Char) : Bool := 0x622 ≤ c.toNat && c.toNat ≤ 0x6CC

/-- The range `[؀-ۿ]` (whole Arabic block) of `users.module.js`. -/
def inArabicBlock (c : Char) : Bool := 0x600 ≤ c.toNat && c.toNat ≤ 0x6FF

/-- The explicit Persian-letter list of the `okLower` regex. -/
def persianLetters : List Char :=
  ['ا', 'آ', 'ب', 'پ', 'ت', 'ث', 'ج', 'چ', 'ح', 'خ', 'د', 'ذ', 'ر', 'ز',
   'ژ', 'س', 'ش', 'ص', 'ض', 'ط', 'ظ', 'ع', 'غ', 'ف', 'ق', 'ک', 'گ', 'ل',
   'م', 'ن', 'و', 'ه', 'ی']

/-- Membership in the `okLower` letter list. -/
def isListedPersian (c : Char) : Bool := persianLetters.contains c

/-- `/re/.test(s)` for a single character class: some character matches. -/
def strAny (s : String) (f : Char → Bool) : Bool := s.toList.any f

/-- The inline five-clause complexity check of `auth_module.js`, textually
identical at its two call sites (`PATCH /api/auth/password` lines 148-157
and `POST /api/auth/password/expired-change` lines 199-207). -/
def authComplexityOk (pass : String) : Bool :=
  let okLen := decide (8 ≤ pass.length)
  let okUpper := strAny pass (fun c => isAsciiUpper c || inPersianRange c)
  let okLower := strAny pass isAsciiLower || strAny pass isListedPersian
  let okDigit := strAny pass isAsciiDigit
  let okSpec := strAny pass
    (fun c => !(isAsciiUpper c || isAsciiLower c || isAsciiDigit c || inPersianRange c))
  okLen && okUpper && okLower && okDigit && okSpec

/-- `validatePasswordComplexity` of `users.module.js`: length ≥ 8, some
letter (Latin either case or the Arabic block), some digit, some character
outside alphanumeric-and-Arabic-block. -/
def validatePasswordComplexity (pass : String) : Bool :=
  if pass.length < 8 then false
  else
    let hasLetter := strAny pass (fun c => isAsciiUpper c || isAsciiLower c || inArabicBlock c)
    let hasDigit := strAny pass isAsciiDigit
    let hasSpec := strAny pass
      (fun c => !(isAsciiUpper c || isAsciiLower c || isAsciiDigit c || inArabicBlock c))
    hasLetter && hasDigit && hasSpec

/-- The five-clause conjunction exactly as claim C5 and spec §4.3 word it. -/
def meetsComplexitySpec (pass : String) : Prop :=
  8 ≤ pass.length
  ∧ (∃ c ∈ pass.toList, isAsciiUpper c = true ∨ inPersianRange c = true)
  ∧ (∃ c ∈ pass.toList, isAsciiLower c = true ∨ isListedPersian c = true)
  ∧ (∃ c ∈ pass.toList, isAsciiDigit c = true)
  ∧ (∃ c ∈ pass.toList,
      isAsciiUpper c = false ∧ isAsciiLower c = false
      ∧ isAsciiDigit c = false ∧ inPersianRange c = false)

/- ============ Startup secret guard (auth.js 22-33, auth_module.js 61-70) ============ -/

/-- The environment variables the two modules read for secrets and mode. -/
structure Env where
  nodeEnv : Option String
  jwtAccessSecret : Option String
  jwtSecret : Option String
  accessSecret : Option String
  jwtRefreshSecret : Option String
  refreshSecret : Option String
deriving DecidableEq, Repr

/-- `CANDIDATE_ACCESS_SECRETS` of `auth.js`: the three env aliases plus the
fixed development fallback, with `.filter(Boolean)` dropping absent and
empty entries (the fallback literal is always kept). -/
def CANDIDATE_ACCESS_SECRETS (env : Env) : List String :=
  (([env.jwtAccessSecret, env.jwtSecret, env.accessSecret,
     some "dev_access_secret_change_me"]).filterMap id).filter (fun s => s ≠ "")

/-- `String(s).includes("dev_")` — the "recognizable development
placeholder" test of the startup guard. -/
def hasDevMarker (s : String) : Bool := listContainsSeq "dev_".toList s.toList

/-- The guard expression `isProd && CANDIDATE_ACCESS_SECRETS.some(s => …)`. -/
def devSecretGuard (isProd : Bool) (candidates : List String) : Bool :=
  isProd && candidates.any hasDevMarker

/-- Module load of `auth.js`: `NODE_ENV === "production"` plus the guard;
firing it throws and aborts startup, otherwise the module loads. -/
def startupCheck (env : Env) : Except String Unit :=
  if devSecretGuard (decide (env.nodeEnv = some "production"))
      (CANDIDATE_ACCESS_SECRETS env) then
    .error "Refusing to start with dev JWT secret in production."
  else .ok ()

/-- JS `a || b` over an optional string with a further default. -/
def jsOrD : Option String → String → String
  | none, d => d
  | some s, d => if s = "" then d else s

/-- `REFRESH_SECRET` of `auth_module.js`: primary, alias, then the fixed
development fallback — with no production guard of its own. -/
def REFRESH_SECRET (env : Env) : String :=
  jsOrD env.jwtRefreshSecret (jsOrD env.refreshSecret "dev_refresh_secret_change_me")

/-- Every candidate secret of the process, access and refresh together, in
the sense of claim C7. -/
def allCandidateSecrets (env : Env) : List String :=
  CANDIDATE_ACCESS_SECRETS env ++ [REFRESH_SECRET env]

/- ============ User rows and route handlers (auth_module.js 14-124, 176-217) ============ -/

/-- A `users` table row as the auth-module queries project it.  `password`
is the stored bcrypt hash (`none` for SQL NULL, `some ""` for an empty
string — both falsy in JS); `password_changed_at` as in `isPasswordExpired`. -/
structure UserRow where
  id : Int
  username : String
  fullname : String
  role : String
  status : String
  password : Option String
  password_changed_at : Option Int
deriving DecidableEq, Repr

/-- An HTTP response, reduced to the fields the claims are about: status,
the `ok` flag and the optional machine-readable `code`. -/
structure Resp where
  status : Nat
  ok : Bool
  code : Option String
deriving DecidableEq, Repr

/-- `dbGetUserByUsername`: `SELECT … FROM users WHERE username = ? LIMIT 1`. -/
def dbGetUserByUsername (db : List UserRow) (uname : String) : Option UserRow :=
  db.find? (fun u => u.username = uname)

/-- `POST /api/auth/login` of `auth_module.js`, with the bcrypt comparison
`cmp` passed in as an oracle.  The success response's payload and tokens are
elided (the claims concern only status/ok/code). -/
def loginHandler (cmp : String → String → Bool) (maxAgeDays now : Int)
    (username password : Option String) (db : List UserRow) : Resp :=
  if !optTruthy username || !optTruthy password then ⟨400, false, none⟩
  else
    match dbGetUserByUsername db (strTrim (username.getD "")) with
    | none => ⟨401, false, none⟩
    | some user =>
      if !optTruthy user.password then ⟨401, false, none⟩
      else if !cmp (password.getD "") (user.password.getD "") then ⟨401, false, none⟩
      else if user.status ≠ "" && user.status ≠ "active" then ⟨403, false, none⟩
      else if isPasswordExpired maxAgeDays user.password_changed_at now then
        ⟨403, false, some "PASSWORD_EXPIRED"⟩
      else ⟨200, true, none⟩

/-- The `UPDATE users SET password=?, password_changed_at=NOW() WHERE id=?`
statement. -/
def expiredChangeUpdate (db : List UserRow) (uid : Int) (newHash : String)
    (now : Int) : List UserRow :=
  db.map (fun u =>
    if u.id = uid then { u with password := some newHash, password_changed_at := some now }
    else u)

/-- `POST /api/auth/password/expired-change` of `auth_module.js` (the
token-free password change): bcrypt comparison `cmp` and the hash `newHash`
produced by `hashPassword` enter as oracle/parameter.  Returns the response
together with the table state after the handler. -/
def expiredChangeHandler (cmp : String → String → Bool) (newHash : String)
    (maxAgeDays now : Int) (username current_password new_password : Option String)
    (db : List UserRow) : Resp × List UserRow :=
  if !optTruthy username || !optTruthy current_password || !optTruthy new_password then
    (⟨400, false, none⟩, db)
  else
    match dbGetUserByUsername db (strTrim (username.getD "")) with
    | none => (⟨404, false, none⟩, db)
    | some user =>
      if !optTruthy user.password then (⟨404, false, none⟩, db)
      else if user.status ≠ "" && user.status ≠ "active" then (⟨403, false, none⟩, db)
      else if !isPasswordExpired maxAgeDays user.password_changed_at now then
        (⟨400, false, none⟩, db)
      else if !cmp (current_password.getD "") (user.password.getD "") then
        (⟨400, false, none⟩, db)
      else if !authComplexityOk (new_password.getD "") then (⟨400, false, none⟩, db)
      else (⟨200, true, none⟩, expiredChangeUpdate db user.id newHash now)

/-- The conditions under which, per claim C10, the token-free password
change may touch the stored credential: fields present, the named user
exists with a stored hash, the account is active, the stored password is
currently expired, the supplied current password verifies, and the new
password passes the complexity check. -/
def expiredChangeAllowed (cmp : String → String → Bool) (maxAgeDays now : Int)
    (username current_password new_password : Option String)
    (db : List UserRow) : Bool :=
  optTruthy username && optTruthy current_password && optTruthy new_password &&
    match dbGetUserByUsername db (strTrim (username.getD "")) with
    | none => false
    | some u =>
      optTruthy u.password
      && u.status = "active"
      && isPasswordExpired maxAgeDays u.password_changed_at now
      && cmp (current_password.getD "") (u.password.getD "")
      && authComplexityOk (new_password.getD "")

/- ===== Incident ACL (incidents_module.js 247-253, actions_module.js 156-167) ===== -/

/-- The ownership descriptor `{id, reporter_id, category_id}` the modules
select for an incident. -/
structure OwnRow where
  id : Int
  reporter_id : Int
  category_id : Int
deriving DecidableEq, Repr

/-- `canReadIncident`, defined identically in `incidents_module.js` and
`actions_module.js` (`!user || !own` guards model the `none` cases). -/
def canReadIncident (user : Option Identity) (own : Option OwnRow) : Bool :=
  match user, own with
  | none, _ => false
  | some _, none => false
  | some u, some o =>
    if u.role = "system-admin" then true
    else if u.role = "defense-admin" then decide (o.category_id = 2)
    else decide (o.reporter_id = u.id)

/-- `canActOnIncident` of `actions_module.js`: as `canReadIncident` but
without the owner fallback. -/
def canActOnIncident (user : Option Identity) (own : Option OwnRow) : Bool :=
  match user, own with
  | none, _ => false
  | some _, none => false
  | some u, some o =>
    if u.role = "system-admin" then true
    else if u.role = "defense-admin" then decide (o.category_id = 2)
    else false

/-- `categoryLabelById` of `incidents_module.js`: 1 is "cyber", 2 is
"physical". -/
def categoryLabelById (cid : Int) : String :=
  if cid = 1 then "cyber"
  else if cid = 2 then "physical"
  else "cat_" ++ toString cid

/- ============================ Helper lemmas ============================ -/

/-- One unfolding step of the verification loop. -/
theorem verifyLoop_cons (now : Int) (tok : Token) (a : String) (rest : List String)
    (acc : Option JwtError) :
    verifyLoop now tok (a :: rest) acc
      = match jwtVerify now tok a with
        | .ok p => .ok p
        | .error e => verifyLoop now tok rest (some e) := rfl

/-- If the signing secret is among the candidates and the token is not
expired, the loop succeeds with the token's payload. -/
theorem verifyLoop_ok_of_mem (now : Int) (tok : Token) :
    ∀ (l : List String) (acc : Option JwtError),
      tok.secret ∈ l → now < tok.exp →
      verifyLoop now tok l acc = .ok tok.payload := by
  intro l
  induction l with
  | nil => intro acc h; simp at h
  | cons a rest ih =>
    intro acc hmem hexp
    by_cases ha : a = tok.secret
    · have hv : jwtVerify now tok a = .ok tok.payload := by
        simp [jwtVerify, ha, not_le.mpr hexp]
      rw [verifyLoop_cons, hv]
    · have hv : jwtVerify now tok a = .error .invalidSignature := by
        simp [jwtVerify, ha]
      have hmem2 : tok.secret ∈ rest := by
        rcases List.mem_cons.mp hmem with h | h
        · exact absurd h.symm ha
        · exact h
      calc verifyLoop now tok (a :: rest) acc
          = verifyLoop now tok rest (some .invalidSignature) := by
            rw [verifyLoop_cons, hv]
        _ = .ok tok.payload := ih _ hmem2 hexp

/-- If the signing secret is not among the candidates, every attempt fails
on the signature and the surfaced last failure is `invalidSignature`. -/
theorem verifyLoop_error_of_not_mem (now : Int) (tok : Token) :
    ∀ (l : List String) (acc : Option JwtError),
      tok.secret ∉ l → l ≠ [] →
      verifyLoop now tok l acc = .error .invalidSignature := by
  intro l
  induction l with
  | nil => intro acc _ h; exact absurd rfl h
  | cons a rest ih =>
    intro acc hmem _
    have ha : a ≠ tok.secret := fun h => hmem (by simp [h])
    have hv : jwtVerify now tok a = .error .invalidSignature := by
      simp [jwtVerify, ha]
    cases rest with
    | nil => rw [verifyLoop_cons, hv]; rfl
    | cons b t =>
      have hmem2 : tok.secret ∉ b :: t := fun h => hmem (List.mem_cons_of_mem a h)
      calc verifyLoop now tok (a :: b :: t) acc
          = verifyLoop now tok (b :: t) (some .invalidSignature) := by
            rw [verifyLoop_cons, hv]
        _ = .error .invalidSignature := ih _ hmem2 (by simp)

/-- For an already-expired token every candidate fails, so the loop surfaces
the failure of the LAST candidate: `tokenExpired` if that candidate is the
signing secret, `invalidSignature` otherwise. -/
theorem verifyLoop_error_getLast (now : Int) (tok : Token) :
    ∀ (l : List String) (acc : Option JwtError) (s : String),
      l.getLast? = some s → tok.exp ≤ now →
      verifyLoop now tok l acc
        = .error (if s = tok.secret then .tokenExpired else .invalidSignature) := by
  intro l
  induction l with
  | nil => intro acc s h; simp at h
  | cons a rest ih =>
    intro acc s hlast hexp
    have hfail : jwtVerify now tok a
        = .error (if a = tok.secret then .tokenExpired else .invalidSignature) := by
      by_cases ha : a = tok.secret
      · simp [jwtVerify, ha, hexp]
      · simp [jwtVerify, ha]
    cases rest with
    | nil =>
      have hs : s = a := by simpa using hlast.symm
      subst hs
      rw [verifyLoop_cons, hfail]
      rfl
    | cons b t =>
      have hlast2 : (b :: t).getLast? = some s := by
        simpa [List.getLast?_cons_cons] using hlast
      calc verifyLoop now tok (a :: b :: t) acc
          = verifyLoop now tok (b :: t)
              (some (if a = tok.secret then .tokenExpired else .invalidSignature)) := by
            rw [verifyLoop_cons, hfail]
        _ = .error (if s = tok.secret then .tokenExpired else .invalidSignature) :=
            ih _ s hlast2 hexp

/- =============================== Claims =============================== -/

/-- C1 (counterexample): an already-expired token signed with the FIRST of
two configured candidate secrets is rejected, but — because the signature
check precedes the expiry check and the loop surfaces the LAST failure —
the surfaced error is the second candidate's invalid-signature failure,
so the middleware answers INVALID_ACCESS, not EXPIRED_ACCESS.  This
refutes the claim that an expired token is never rejected as
INVALID_ACCESS. -/
theorem verifyAccess_expired_token_reported_invalid :
    verifyWithAnySecret 20 ["s1", "s2"] ⟨⟨1, "u", "f", "user"⟩, "s1", 10⟩
      = .error .invalidSignature
    ∧ authErrorCode .invalidSignature = "INVALID_ACCESS"
    ∧ authErrorCode .tokenExpired = "EXPIRED_ACCESS" :=
  ⟨rfl, rfl, rfl⟩

/-- C1 (amended): `verify_access` tries the candidates in configured order
and succeeds on the first match, so an unexpired token signed with any
configured candidate verifies; when all candidates fail the LAST failure is
surfaced, hence a token signed by a non-configured secret is rejected as
INVALID_ACCESS, while an already-expired token is rejected as
EXPIRED_ACCESS precisely when the last candidate is its signing secret and
as INVALID_ACCESS otherwise. -/
theorem verifyAccess_order_and_last_failure :
    ∀ (now : Int) (secrets : List String) (tok : Token),
      (tok.secret ∈ secrets → now < tok.exp →
        verifyWithAnySecret now secrets tok = .ok tok.payload)
      ∧ (tok.secret ∉ secrets → secrets ≠ [] →
        verifyWithAnySecret now secrets tok = .error .invalidSignature)
      ∧ (∀ s : String, secrets.getLast? = some s → tok.exp ≤ now →
        verifyWithAnySecret now secrets tok
          = .error (if s = tok.secret then .tokenExpired else .invalidSignature)) := by
  intro now secrets tok
  exact ⟨fun h1 h2 => verifyLoop_ok_of_mem now tok secrets none h1 h2,
         fun h1 h2 => verifyLoop_error_of_not_mem now tok secrets none h1 h2,
         fun s h1 h2 => verifyLoop_error_getLast now tok secrets none s h1 h2⟩

/-- C1 (witness): the three cases of the amended statement at concrete
configurations. -/
theorem verifyAccess_order_and_last_failure_witness :
    verifyWithAnySecret 0 ["k1", "k2"] ⟨⟨1, "u", "f", "user"⟩, "k2", 100⟩
      = .ok ⟨1, "u", "f", "user"⟩
    ∧ verifyWithAnySecret 0 ["k1", "k2"] ⟨⟨1, "u", "f", "user"⟩, "other", 100⟩
      = .error .invalidSignature
    ∧ verifyWithAnySecret 50 ["k1", "k2"] ⟨⟨1, "u", "f", "user"⟩, "k2", 10⟩
      = .error (if "k2" = (⟨⟨1, "u", "f", "user"⟩, "k2", 10⟩ : Token).secret
                then .tokenExpired else .invalidSignature) :=
  ⟨(verifyAccess_order_and_last_failure 0 ["k1", "k2"]
      ⟨⟨1, "u", "f", "user"⟩, "k2", 100⟩).1 (by decide) (by decide),
   (verifyAccess_order_and_last_failure 0 ["k1", "k2"]
      ⟨⟨1, "u", "f", "user"⟩, "other", 100⟩).2.1 (by decide) (by decide),
   (verifyAccess_order_and_last_failure 50 ["k1", "k2"]
      ⟨⟨1, "u", "f", "user"⟩, "k2", 10⟩).2.2 "k2" (by decide) (by decide)⟩

/-- C2: contrary to the claim, when the identity store RESPONDS and reports
that no identity with the token's subject id exists, the middleware does
not fail with 403 — the `catch` block of `hydrateUserIfNeeded` (written for
the store-unreachable case, per its own comment) also swallows the
`Error("User not found")` with `status = 403` that the function itself just
threw, so hydration falls back to the token's embedded claims exactly as in
the unreachable case and the request proceeds. -/
theorem hydrate_notFound_falls_back :
    ∀ p : Identity, hydrateUserIfNeeded p .notFound = p := by
  intro p
  simp [hydrateUserIfNeeded, hydrateAttempt]

/-- C3 (counterexample): a system-admin whose password is 91 days old (max
age 90), supplying the correct password to an active account, is refused
login with 403 PASSWORD_EXPIRED — the login flow enforces password expiry
on system-admins, refuting the claim that the exemption holds on every
code path. -/
theorem login_system_admin_password_expired_denied :
    loginHandler (fun p h => p == h) 90 (91 * 86400000) (some "root") (some "h")
      [⟨1, "root", "Root", "system-admin", "active", some "h", some 0⟩]
      = ⟨403, false, some "PASSWORD_EXPIRED"⟩ := by
  decide

/-- C3 (amended): the system-admin exemption from password expiry holds in
the per-request middleware gate — `checkPasswordExpiry` reports "not
expired" for any role spelling of system-admin regardless of the stored
timestamp — but NOT in the login flow: the login handler's expiry decision
(`isPasswordExpired`) never consults the role, so changing a user's role
changes nothing about the login outcome. -/
theorem password_expiry_exemption_middleware_only :
    ∀ (role : String) (changedAt : Option Int) (now maxAge : Int)
      (u : UserRow) (r : String) (cmp : String → String → Bool)
      (maxAgeDays now2 : Int) (username password : Option String),
      (strToLower role = "system-admin" →
        (checkPasswordExpiry role changedAt now maxAge).expired = false)
      ∧ loginHandler cmp maxAgeDays now2 username password [{ u with role := r }]
        = loginHandler cmp maxAgeDays now2 username password [u] := by
  intro role changedAt now maxAge u r cmp maxAgeDays now2 username password
  constructor
  · intro h
    simp [checkPasswordExpiry, h]
  · simp only [loginHandler, dbGetUserByUsername, List.find?]
    split
    · rfl
    · cases hdec : decide (u.username = strTrim (username.getD "")) <;> simp [hdec]

/-- C3 (witness): the exemption instantiated for a literally-spelled
"System-Admin" with a 100-day-old password, and role-irrelevance of the
login flow at a concrete store. -/
theorem password_expiry_exemption_middleware_only_witness :
    (checkPasswordExpiry "System-Admin" (some 0) (100 * 86400000) 90).expired = false
    ∧ loginHandler (fun p h => p == h) 90 0 (some "a") (some "b")
        [{ (⟨1, "a", "A", "user", "active", some "b", some 0⟩ : UserRow) with role := "x" }]
      = loginHandler (fun p h => p == h) 90 0 (some "a") (some "b")
        [⟨1, "a", "A", "user", "active", some "b", some 0⟩] :=
  ⟨(password_expiry_exemption_middleware_only "System-Admin" (some 0) (100 * 86400000) 90
      ⟨1, "a", "A", "user", "active", some "b", some 0⟩ "x" (fun p h => p == h) 90 0
      (some "a") (some "b")).1 (by decide),
   (password_expiry_exemption_middleware_only "System-Admin" (some 0) (100 * 86400000) 90
      ⟨1, "a", "A", "user", "active", some "b", some 0⟩ "x" (fun p h => p == h) 90 0
      (some "a") (some "b")).2⟩

/-- C4 (counterexample): the two code paths deviate from the reference
predicate.  At 90 days + 1 hour of age with max 90, the login-flow
predicate (fractional days) says expired while the whole-days reference
says not; and with `max_age_days = 0` and a 5-day-old password, the
middleware predicate says expired while the reference's disable clause
says not. -/
theorem password_expiry_predicates_deviate_from_reference :
    isPasswordExpired 90 (some 0) (90 * 86400000 + 3600000) = true
    ∧ refIsExpired 90 (some 0) (90 * 86400000 + 3600000) = false
    ∧ (checkPasswordExpiry "user" (some 0) (5 * 86400000) 0).expired = true
    ∧ refIsExpired 0 (some 0) (5 * 86400000) = false := by
  refine ⟨by decide, by decide, by decide, by decide⟩

/-- C4 (amended): the login-flow predicate implements the ≤ 0 disable and
the fail-closed absent-timestamp clauses but compares exact
(fractional-day) age — expired iff `now - changed_at > max_age_days` DAYS
in milliseconds — making it strictly stronger than the whole-days
reference; the middleware predicate agrees with the reference whenever the
policy is enabled (`0 < max_age_days`) and the role is not exempt, is
fail-closed on an absent timestamp, but has no disable clause for
`max_age_days ≤ 0`. -/
theorem password_expiry_predicates_characterization :
    ∀ (maxAge : Int) (changedAt : Option Int) (now : Int) (role : String),
      (maxAge ≤ 0 → isPasswordExpired maxAge changedAt now = false)
      ∧ (0 < maxAge → isPasswordExpired maxAge none now = true)
      ∧ (∀ t : Int, 0 < maxAge →
          (isPasswordExpired maxAge (some t) now = true ↔ maxAge * msPerDay < now - t))
      ∧ (strToLower role ≠ "system-admin" → 0 < maxAge →
          (checkPasswordExpiry role changedAt now maxAge).expired
            = refIsExpired maxAge changedAt now)
      ∧ (strToLower role ≠ "system-admin" →
          (checkPasswordExpiry role none now maxAge).expired = true)
      ∧ (refIsExpired maxAge changedAt now = true →
          isPasswordExpired maxAge changedAt now = true) := by
  intro maxAge changedAt now role
  refine ⟨?_, ?_, ?_, ?_, ?_, ?_⟩
  · intro h; simp [isPasswordExpired, h]
  · intro h; simp [isPasswordExpired, not_le.mpr h]
  · intro t h; simp [isPasswordExpired, not_le.mpr h]
  · intro hrole hpos
    simp only [checkPasswordExpiry, refIsExpired, if_neg hrole, if_neg (not_le.mpr hpos)]
    cases changedAt <;> simp
  · intro hrole
    simp [checkPasswordExpiry, if_neg hrole]
  · intro h
    by_cases hpos : maxAge ≤ 0
    · simp [refIsExpired, hpos] at h
    · cases changedAt with
      | none => simp [isPasswordExpired, hpos]
      | some t =>
        simp only [refIsExpired, if_neg hpos, decide_eq_true_eq] at h
        have hday : (0 : Int) < msPerDay := by decide
        have h2 : maxAge + 1 ≤ Int.fdiv (now - t) msPerDay := Int.add_one_le_iff.mpr h
        have h3 : Int.fdiv (now - t) msPerDay = (now - t) / msPerDay :=
          Int.fdiv_eq_ediv _ (by decide)
        rw [h3] at h2
        have h4 : (maxAge + 1) * msPerDay ≤ now - t :=
          (Int.le_ediv_iff_mul_le hday).mp h2
        simp only [isPasswordExpired, if_neg hpos, decide_eq_true_eq]
        have h5 : maxAge * msPerDay < (maxAge + 1) * msPerDay := by nlinarith
        omega

/-- C4 (witness): each guarded conjunct of the characterization discharged
at concrete inputs. -/
theorem password_expiry_predicates_characterization_witness :
    isPasswordExpired 0 (some 5) 10 = false
    ∧ isPasswordExpired 90 none 10 = true
    ∧ (isPasswordExpired 90 (some 0) (91 * 86400000) = true
        ↔ 90 * msPerDay < 91 * 86400000 - 0)
    ∧ (checkPasswordExpiry "user" (some 0) (91 * 86400000) 90).expired
        = refIsExpired 90 (some 0) (91 * 86400000)
    ∧ (checkPasswordExpiry "user" none 10 90).expired = true
    ∧ isPasswordExpired 90 (some 0) (92 * 86400000) = true :=
  ⟨(password_expiry_predicates_characterization 0 (some 5) 10 "user").1 (by decide),
   (password_expiry_predicates_characterization 90 none 10 "user").2.1 (by decide),
   (password_expiry_predicates_characterization 90 (some 0) (91 * 86400000) "user").2.2.1
     0 (by decide),
   (password_expiry_predicates_characterization 90 (some 0) (91 * 86400000) "user").2.2.2.1
     (by decide) (by decide),
   (password_expiry_predicates_characterization 90 (some 0) 10 "user").2.2.2.2.1 (by decide),
   (password_expiry_predicates_characterization 90 (some 0) (92 * 86400000) "user").2.2.2.2.2
     (by decide)⟩

/-- C5 (counterexample): "abc12345!" — no uppercase or supported-script
letter — fails the five-clause conjunction, yet the users-module
complexity check `validatePasswordComplexity` (used at user creation and
both users-module password routes) accepts it, refuting the claim that
EVERY complexity check in the program equals the five-clause conjunction. -/
theorem users_module_complexity_relaxed :
    validatePasswordComplexity "abc12345!" = true
    ∧ authComplexityOk "abc12345!" = false
    ∧ ¬ meetsComplexitySpec "abc12345!" := by
  refine ⟨by decide, by decide, ?_⟩
  simp only [meetsComplexitySpec]
  decide

/-- C5 (amended): the inline check of the auth module — textually identical
at its two call sites, `PATCH /api/auth/password` and
`POST /api/auth/password/expired-change` — accepts a password exactly when
the spec's five-clause conjunction holds (rejecting "abc", accepting
"Abc12345!"), but the users-module `validatePasswordComplexity` relaxes
the separate uppercase and lowercase clauses to a single any-letter
clause, accepting e.g. "abc12345!". -/
theorem complexity_checks_characterization :
    (∀ p : String, authComplexityOk p = true ↔ meetsComplexitySpec p)
    ∧ authComplexityOk "abc" = false
    ∧ authComplexityOk "Abc12345!" = true
    ∧ validatePasswordComplexity "abc12345!" = true := by
  refine ⟨?_, by decide, by decide, by decide⟩
  intro p
  simp only [authComplexityOk, meetsComplexitySpec, strAny, Bool.and_eq_true,
    Bool.or_eq_true, List.any_eq_true, decide_eq_true_eq, Bool.not_eq_true']
  constructor
  · rintro ⟨⟨⟨⟨hlen, hup⟩, hlow⟩, hdig⟩, hspec⟩
    refine ⟨hlen, ?_, ?_, ?_, ?_⟩
    · obtain ⟨c, hc, h⟩ := hup
      exact ⟨c, hc, h⟩
    · rcases hlow with ⟨c, hc, h⟩ | ⟨c, hc, h⟩
      · exact ⟨c, hc, Or.inl h⟩
      · exact ⟨c, hc, Or.inr h⟩
    · exact hdig
    · obtain ⟨c, hc, h⟩ := hspec
      simp only [Bool.or_eq_false_iff] at h
      exact ⟨c, hc, h.1.1.1, h.1.1.2, h.1.2, h.2⟩
  · rintro ⟨hlen, hup, hlow, hdig, hspec⟩
    refine ⟨⟨⟨⟨hlen, ?_⟩, ?_⟩, hdig⟩, ?_⟩
    · exact hup
    · rcases hlow with ⟨c, hc, h | h⟩
      · exact Or.inl ⟨c, hc, h⟩
      · exact Or.inr ⟨c, hc, h⟩
    · obtain ⟨c, hc, h1, h2, h3, h4⟩ := hspec
      exact ⟨c, hc, by simp [h1, h2, h3, h4]⟩

/-- C6: after hydration, a request whose identity has an expired,
non-exempt password is answered 403 PASSWORD_EXPIRED unless it matches the
expiry whitelist, which is exactly the three method + path-suffix pairs of
the claim (GET …/api/auth/me, PATCH …/api/auth/password,
POST …/api/auth/logout), in which case it proceeds to the handler. -/
theorem expiry_gate_whitelist_characterization :
    ∀ (expired : Bool) (method url : String),
      (isExpiredWhitelist method url = true ↔ whitelistSpec method url)
      ∧ (expiryGate expired method url = .proceed
          ↔ (expired = false ∨ whitelistSpec method url))
      ∧ (expiryGate expired method url = .respond 403 (some "PASSWORD_EXPIRED")
          ↔ (expired = true ∧ ¬ whitelistSpec method url)) := by
  intro expired method url
  have hw : isExpiredWhitelist method url = true ↔ whitelistSpec method url := by
    simp only [isExpiredWhitelist, whitelistSpec]
    split_ifs with h1 h2 h3 <;> simp_all [Bool.and_eq_true, decide_eq_true_eq]
  refine ⟨hw, ?_, ?_⟩
  all_goals
    cases h : isExpiredWhitelist method url with
    | true =>
      have hs := hw.mp h
      cases expired <;> simp [expiryGate, h, hs]
    | false =>
      have hns : ¬ whitelistSpec method url := fun hs => by simp [hw.mpr hs] at h
      cases expired <;> simp [expiryGate, h, hns]

/-- C7: in production mode any development-placeholder candidate secret
(access or refresh — the access list unconditionally contains the dev
fallback, so the guard fires in production whenever any candidate carries
the `dev_` marker) makes startup throw, a fatal error rather than a
warning; outside production startup proceeds, and the guard itself passes
any candidate list free of placeholders. -/
theorem startup_dev_secret_guard :
    ∀ env : Env,
      (env.nodeEnv = some "production" →
        (∃ s ∈ allCandidateSecrets env, hasDevMarker s = true) →
        startupCheck env = .error "Refusing to start with dev JWT secret in production.")
      ∧ (env.nodeEnv ≠ some "production" → startupCheck env = .ok ())
      ∧ (∀ (isProd : Bool) (cands : List String),
          (∀ s ∈ cands, hasDevMarker s = false) → devSecretGuard isProd cands = false) := by
  intro env
  refine ⟨?_, ?_, ?_⟩
  · intro hprod _
    have hmem : "dev_access_secret_change_me" ∈ CANDIDATE_ACCESS_SECRETS env := by
      simp [CANDIDATE_ACCESS_SECRETS, List.mem_filter, List.mem_filterMap]
    have hany : (CANDIDATE_ACCESS_SECRETS env).any hasDevMarker = true :=
      List.any_eq_true.mpr ⟨_, hmem, by decide⟩
    simp [startupCheck, devSecretGuard, hprod, hany]
  · intro h
    have hd : (decide (env.nodeEnv = some "production")) = false := decide_eq_false h
    simp [startupCheck, devSecretGuard, hd]
  · intro b cands h
    have hfalse : cands.any hasDevMarker = false := by
      rw [List.any_eq_false]
      intro x hx
      simp [h x hx]
    simp [devSecretGuard, hfalse]

/-- C7 (witness): a production environment (refusal), a development
environment (startup proceeds), and a placeholder-free candidate list
(guard passes). -/
theorem startup_dev_secret_guard_witness :
    startupCheck ⟨some "production", some "strong-access", none, none, none, none⟩
      = .error "Refusing to start with dev JWT secret in production."
    ∧ startupCheck ⟨some "development", none, none, none, none, none⟩ = .ok ()
    ∧ devSecretGuard true ["strong-secret"] = false :=
  ⟨(startup_dev_secret_guard ⟨some "production", some "strong-access", none, none, none, none⟩).1
      rfl ⟨"dev_access_secret_change_me", by decide, by decide⟩,
   (startup_dev_secret_guard ⟨some "development", none, none, none, none, none⟩).2.1 (by decide),
   (startup_dev_secret_guard ⟨some "development", none, none, none, none, none⟩).2.2
      true ["strong-secret"] (by decide)⟩

/-- C8: the role gate answers 401 when no identity was attached; a
system-admin (case-insensitively) always proceeds regardless of the
configured set; any other identity proceeds exactly when its role matches a
configured role case-insensitively, and is otherwise answered 403. -/
theorem allowRoles_characterization :
    ∀ (roles : List String) (u : Identity),
      allowRoles roles none = .respond 401 none
      ∧ (allowRoles roles (some u) = .proceed
          ↔ (strToLower u.role = "system-admin"
              ∨ ∃ r ∈ roles, strToLower r = strToLower u.role))
      ∧ (allowRoles roles (some u) = .respond 403 none
          ↔ (strToLower u.role ≠ "system-admin"
              ∧ ¬ ∃ r ∈ roles, strToLower r = strToLower u.role)) := by
  intro roles u
  have hc : ((roles.map (fun r => strToLower r)).contains (strToLower u.role) = true)
      ↔ ∃ r ∈ roles, strToLower r = strToLower u.role := by
    simp [List.contains_iff_exists_mem_beq, List.mem_map, beq_iff_eq]
  by_cases h1 : strToLower u.role = "system-admin"
  · exact ⟨rfl, by simp [allowRoles, h1], by simp [allowRoles, h1]⟩
  · cases hcon : (roles.map (fun r => strToLower r)).contains (strToLower u.role) with
    | true =>
      have hex := hc.mp hcon
      exact ⟨rfl, by simp [allowRoles, h1, hcon, hex], by simp [allowRoles, h1, hcon, hex]⟩
    | false =>
      have hnex : ¬ ∃ r ∈ roles, strToLower r = strToLower u.role := fun h => by
        rw [hc.mpr h] at hcon
        exact Bool.noConfusion hcon
      exact ⟨rfl, by simp [allowRoles, h1, hcon, hnex], by simp [allowRoles, h1, hcon, hnex]⟩

/-- A label of the form `cat_…` is never "physical". -/
theorem cat_append_ne_physical (s : String) : ("cat_" ++ s) ≠ "physical" := by
  obtain ⟨l⟩ := s
  intro h
  have h2 : ("cat_" ++ String.mk l).data = "physical".data := congrArg String.data h
  simp [String.data_append] at h2

/-- A category id labels as "physical" exactly when it is 2. -/
theorem categoryLabel_physical_iff (cid : Int) :
    categoryLabelById cid = "physical" ↔ cid = 2 := by
  unfold categoryLabelById
  split_ifs with h1 h2
  · subst h1
    constructor
    · intro h; exact absurd h (by decide)
    · intro h; exact absurd h (by decide)
  · simp [h2]
  · simp [h1, h2, cat_append_ne_physical]

/-- C9 (counterexample): a defense-admin who is the OWNER (reporter) of a
cyber incident satisfies the claim's disjunction through the owner clause,
yet `canReadIncident` is false — the code gives defense-admins no owner
fallback, so the claimed iff fails at this input. -/
theorem defense_admin_owner_fallback_missing :
    canReadIncident (some ⟨5, "d", "D", "defense-admin"⟩) (some ⟨10, 5, 1⟩) = false
    ∧ (((⟨5, "d", "D", "defense-admin"⟩ : Identity).role = "system-admin")
        ∨ ((⟨5, "d", "D", "defense-admin"⟩ : Identity).role = "defense-admin"
            ∧ categoryLabelById (⟨10, 5, 1⟩ : OwnRow).category_id = "physical")
        ∨ (⟨10, 5, 1⟩ : OwnRow).reporter_id = (⟨5, "d", "D", "defense-admin"⟩ : Identity).id) := by
  constructor
  · decide
  · right; right; decide

/-- C9 (amended): `can_read` holds iff the role is system-admin, or the
role is defense-admin and the category is the "physical" one, or the role
is NEITHER admin role and the resource's owner id equals the identity's id
(the owner fallback is the sequential else-branch, not an unconditional
disjunct); `can_act` is the same without the owner clause, `can_act`
implies `can_read` (Boolean absorption), and for a defense-admin
`can_read` is false on a "cyber" (category 1) resource and true on a
"physical" (category 2) one. -/
theorem incident_acl_characterization :
    ∀ (u : Identity) (o : OwnRow) (ou : Option Identity) (oo : Option OwnRow),
      (canReadIncident (some u) (some o) = true
        ↔ (u.role = "system-admin"
            ∨ (u.role = "defense-admin" ∧ categoryLabelById o.category_id = "physical")
            ∨ (u.role ≠ "system-admin" ∧ u.role ≠ "defense-admin"
                ∧ o.reporter_id = u.id)))
      ∧ (canActOnIncident (some u) (some o) = true
        ↔ (u.role = "system-admin"
            ∨ (u.role = "defense-admin" ∧ categoryLabelById o.category_id = "physical")))
      ∧ ((canActOnIncident ou oo || canReadIncident ou oo) = canReadIncident ou oo)
      ∧ canReadIncident (some ⟨5, "d", "D", "defense-admin"⟩) (some ⟨10, 7, 1⟩) = false
      ∧ canReadIncident (some ⟨5, "d", "D", "defense-admin"⟩) (some ⟨10, 7, 2⟩) = true := by
  intro u o ou oo
  refine ⟨?_, ?_, ?_, by decide, by decide⟩
  · by_cases h1 : u.role = "system-admin"
    · simp [canReadIncident, h1]
    · by_cases h2 : u.role = "defense-admin" <;>
        simp [canReadIncident, h1, h2, categoryLabel_physical_iff]
  · by_cases h1 : u.role = "system-admin"
    · simp [canActOnIncident, h1]
    · by_cases h2 : u.role = "defense-admin" <;>
        simp [canActOnIncident, h1, h2, categoryLabel_physical_iff]
  · cases ou with
    | none => rfl
    | some v =>
      cases oo with
      | none => rfl
      | some w =>
        simp only [canReadIncident, canActOnIncident]
        split_ifs <;> simp

/-- C10: provided every stored account status is one of the data model's
two values ("active"/"inactive"), the token-free password change succeeds
(status 200, `ok`) exactly when all of the claim's conditions hold — the
fields are present, the named user exists with a stored hash, the account
is active, the stored password is currently expired, the current password
verifies, and the new password passes the complexity check — and it
rewrites the found user's credential (hash and `password_changed_at`)
exactly in that case, returning every other (error) response with the
table untouched. -/
theorem expiredChange_updates_iff_all_conditions :
    ∀ (cmp : String → String → Bool) (newHash : String) (maxAgeDays now : Int)
      (username current_password new_password : Option String) (db : List UserRow),
      (∀ u ∈ db, u.status = "active" ∨ u.status = "inactive") →
      ((expiredChangeHandler cmp newHash maxAgeDays now
          username current_password new_password db).1.ok
        = expiredChangeAllowed cmp maxAgeDays now
            username current_password new_password db)
      ∧ ((expiredChangeHandler cmp newHash maxAgeDays now
            username current_password new_password db).2
        = if expiredChangeAllowed cmp maxAgeDays now
              username current_password new_password db = true then
            (match dbGetUserByUsername db (strTrim (username.getD "")) with
             | some u => expiredChangeUpdate db u.id newHash now
             | none => db)
          else db)
      ∧ (decide ((expiredChangeHandler cmp newHash maxAgeDays now
            username current_password new_password db).1.status = 200)
        = expiredChangeAllowed cmp maxAgeDays now
            username current_password new_password db) := by
  intro cmp newHash maxAgeDays now username current_password new_password db hwf
  cases t1 : optTruthy username with
  | false => simp [expiredChangeHandler, expiredChangeAllowed, t1]
  | true =>
    cases t2 : optTruthy current_password with
    | false => simp [expiredChangeHandler, expiredChangeAllowed, t1, t2]
    | true =>
      cases t3 : optTruthy new_password with
      | false => simp [expiredChangeHandler, expiredChangeAllowed, t1, t2, t3]
      | true =>
        cases hfind : dbGetUserByUsername db (strTrim (username.getD "")) with
        | none => simp [expiredChangeHandler, expiredChangeAllowed, t1, t2, t3, hfind]
        | some u =>
          have hu : u ∈ db := List.mem_of_find?_eq_some hfind
          cases p1 : optTruthy u.password with
          | false =>
            simp [expiredChangeHandler, expiredChangeAllowed, t1, t2, t3, hfind, p1]
          | true =>
            rcases hwf u hu with hst | hst
            · cases e1 : isPasswordExpired maxAgeDays u.password_changed_at now with
              | false =>
                simp [expiredChangeHandler, expiredChangeAllowed,
                  t1, t2, t3, hfind, p1, hst, e1]
              | true =>
                cases c1 : cmp (current_password.getD "") (u.password.getD "") with
                | false =>
                  simp [expiredChangeHandler, expiredChangeAllowed,
                    t1, t2, t3, hfind, p1, hst, e1, c1]
                | true =>
                  cases k1 : authComplexityOk (new_password.getD "") with
                  | false =>
                    simp [expiredChangeHandler, expiredChangeAllowed,
                      t1, t2, t3, hfind, p1, hst, e1, c1, k1]
                  | true =>
                    simp [expiredChangeHandler, expiredChangeAllowed,
                      t1, t2, t3, hfind, p1, hst, e1, c1, k1]
            · simp [expiredChangeHandler, expiredChangeAllowed,
                t1, t2, t3, hfind, p1, hst]

/-- C10 (witness): the equivalence instantiated at a concrete store whose
statuses are well-formed. -/
theorem expiredChange_updates_iff_all_conditions_witness :
    ((expiredChangeHandler (fun p h => p == h) "H2" 90 (100 * 86400000)
        (some "bob") (some "h") (some "Abc12345!")
        [⟨1, "bob", "Bob", "user", "active", some "h", some 0⟩]).1.ok
      = expiredChangeAllowed (fun p h => p == h) 90 (100 * 86400000)
          (some "bob") (some "h") (some "Abc12345!")
          [⟨1, "bob", "Bob", "user", "active", some "h", some 0⟩])
    ∧ ((expiredChangeHandler (fun p h => p == h) "H2" 90 (100 * 86400000)
          (some "bob") (some "h") (some "Abc12345!")
          [⟨1, "bob", "Bob", "user", "active", some "h", some 0⟩]).2
      = if expiredChangeAllowed (fun p h => p == h) 90 (100 * 86400000)
            (some "bob") (some "h") (some "Abc12345!")
            [⟨1, "bob", "Bob", "user", "active", some "h", some 0⟩] = true then
          (match dbGetUserByUsername
              [⟨1, "bob", "Bob", "user", "active", some "h", some 0⟩]
              (strTrim ((some "bob").getD "")) with
           | some u => expiredChangeUpdate
              [⟨1, "bob", "Bob", "user", "active", some "h", some 0⟩]
              u.id "H2" (100 * 86400000)
           | none => [⟨1, "bob", "Bob", "user", "active", some "h", some 0⟩])
        else [⟨1, "bob", "Bob", "user", "active", some "h", some 0⟩])
    ∧ (decide ((expiredChangeHandler (fun p h => p == h) "H2" 90 (100 * 86400000)
          (some "bob") (some "h") (some "Abc12345!")
          [⟨1, "bob", "Bob", "user", "active", some "h", some 0⟩]).1.status = 200)
      = expiredChangeAllowed (fun p h => p == h) 90 (100 * 86400000)
          (some "bob") (some "h") (some "Abc12345!")
          [⟨1, "bob", "Bob", "user", "active", some "h", some 0⟩]) :=
  expiredChange_updates_iff_all_conditions (fun p h => p == h) "H2" 90 (100 * 86400000)
    (some "bob") (some "h") (some "Abc12345!")
    [⟨1, "bob", "Bob", "user", "active", some "h", some 0⟩]
    (by intro u hu; simp at hu; simp [hu])
